import Mathlib

/-
Verification of the Testrack client-side authentication state container
(src/client/src/contexts/AuthContext.jsx).

The reducer `authReducer`, the initial state `initialState`, and the
orchestrator actions (`loadUser`, `logout`, `updateProfile`,
`forgotPassword`, `resetPassword`) are shallowly embedded below.  A user
profile (a JavaScript object) is modelled as an ordered association list of
string-valued fields; JavaScript object spread `{...a, ...b}` is modelled by
`spread2`.  A possibly-absent JavaScript value (null/undefined) is an
`Option`.  An awaited collaborator call either resolves with a value or
rejects with an error message; this outcome is an `ApiResult`.
-/

namespace Testrack

/-- A JavaScript object: an ordered association list of string fields.
Lookup takes the first matching key (JS object keys are unique, so lists
built from JS objects have no duplicate keys, but no such invariant is
assumed). -/
abbrev Obj := List (String × String)

/-- Field lookup on a JS object: value of the first entry with the key. -/
def getField (o : Obj) (k : String) : Option String :=
  (o.find? (fun p => p.1 == k)).map (fun p => p.2)

/-- One entry of the first spread operand, with its value overridden by the
second operand when that operand has the same key. -/
def overrideEntry (b : Obj) (p : String × String) : String × String :=
  match getField b p.1 with
  | some v => (p.1, v)
  | none => p

/-- JavaScript object spread `\x7b...a, ...b\x7d`: the keys of `a` in order,
each taking `b`'s value when `b` also has the key, followed by the entries of
`b` whose keys `a` does not have. -/
def spread2 (a b : Obj) : Obj :=
  a.map (overrideEntry b) ++ b.filter (fun q => (getField a q.1).isNone)

/-- The auth store state `\x7buser, isAuthenticated, isLoading, error\x7d`
(AuthContext.jsx lines 6-11).  `user` and `error` are nullable in JS, hence
`Option`. -/
structure AuthState where
  user : Option Obj
  isAuthenticated : Bool
  isLoading : Bool
  error : Option String
deriving DecidableEq, Repr

/-- The initial state: no user, unauthenticated, loading, no error. -/
def initialState : AuthState :=
  { user := none, isAuthenticated := false, isLoading := true, error := none }

/-- The action variants of AUTH_ACTIONS (AuthContext.jsx lines 14-27).
Success payloads are what the orchestrators pass (`response.user`, the
fetched or updated profile), which may be absent in JS, hence `Option Obj`;
failure payloads are the error messages.  `other` stands for any action type
not recognized by the reducer (the `default` branch). -/
inductive Action where
  | LOGIN_START
  | LOGIN_SUCCESS (payload : Option Obj)
  | LOGIN_FAILURE (payload : String)
  | LOGOUT
  | REGISTER_START
  | REGISTER_SUCCESS (payload : Option Obj)
  | REGISTER_FAILURE (payload : String)
  | LOAD_USER_START
  | LOAD_USER_SUCCESS (payload : Option Obj)
  | LOAD_USER_FAILURE (payload : String)
  | UPDATE_PROFILE_SUCCESS (payload : Option Obj)
  | CLEAR_ERROR
  | other
deriving DecidableEq, Repr

/-- The reducer (AuthContext.jsx lines 30-88), case by case after the JS
switch.  In UPDATE_PROFILE_SUCCESS, `\x7b...state.user, ...action.payload\x7d`
spreads a null operand as no fields, hence `Option.getD` with `[]`; the
result is a (possibly empty) object, never null. -/
def authReducer (state : AuthState) (action : Action) : AuthState :=
  match action with
  | .LOGIN_START | .REGISTER_START | .LOAD_USER_START =>
    { state with isLoading := true, error := none }
  | .LOGIN_SUCCESS p | .REGISTER_SUCCESS p | .LOAD_USER_SUCCESS p =>
    { state with
      user := p, isAuthenticated := true, isLoading := false,
      error := none }
  | .LOGIN_FAILURE m | .REGISTER_FAILURE m | .LOAD_USER_FAILURE m =>
    { state with
      user := none, isAuthenticated := false, isLoading := false,
      error := some m }
  | .LOGOUT =>
    { state with
      user := none, isAuthenticated := false, isLoading := false,
      error := none }
  | .UPDATE_PROFILE_SUCCESS p =>
    { state with
      user := some (spread2 (state.user.getD []) (p.getD [])),
      error := none }
  | .CLEAR_ERROR => { state with error := none }
  | .other => state

/-- Outcome of an awaited collaborator (API client) call: resolves with a
value or rejects with an error message. -/
inductive ApiResult (α : Type) where
  | ok (value : α)
  | err (message : String)
deriving DecidableEq, Repr

/-- Result of running one orchestrator action from state `s`: the state after
the dispatched actions have been reduced, the list of dispatched actions,
and the outcome surfaced to the caller (a return value, or a re-raised
error). -/
structure OrchResult (α : Type) where
  state : AuthState
  dispatched : List Action
  outcome : ApiResult α
deriving DecidableEq, Repr

/-- Reduce a list of dispatched actions in order. -/
def runActions (s : AuthState) (acts : List Action) : AuthState :=
  acts.foldl authReducer s

/-- The init-time `loadUser` sequence (AuthContext.jsx lines 97-117), as a
function of the stored token and the collaborator profile fetch outcome:
the list of dispatched actions and whether `removeAuthToken` was called. -/
def loadUser (token : Option String) (profileFetch : ApiResult Obj) :
    List Action × Bool :=
  match token with
  | none => ([.LOAD_USER_FAILURE "No token found"], false)
  | some _ =>
    match profileFetch with
    | .ok u => ([.LOAD_USER_START, .LOAD_USER_SUCCESS (some u)], false)
    | .err m => ([.LOAD_USER_START, .LOAD_USER_FAILURE m], true)

/-- The `logout` orchestrator (AuthContext.jsx lines 146-154): the awaited
collaborator call's error, if any, is caught and logged; the `finally` block
dispatches LOGOUT either way, and the caller always gets a normal return. -/
def logout (s : AuthState) (apiLogout : ApiResult Unit) : OrchResult Unit :=
  match apiLogout with
  | .ok _ => { state := authReducer s .LOGOUT, dispatched := [.LOGOUT],
               outcome := .ok () }
  | .err _ => { state := authReducer s .LOGOUT, dispatched := [.LOGOUT],
                outcome := .ok () }

/-- The `updateProfile` orchestrator (AuthContext.jsx lines 157-161): awaits
the collaborator call; on resolution dispatches UPDATE_PROFILE_SUCCESS with
the returned profile and returns it; a rejection propagates to the caller
with nothing dispatched. -/
def updateProfile (s : AuthState) (api : ApiResult Obj) : OrchResult Obj :=
  match api with
  | .ok u =>
    { state := authReducer s (.UPDATE_PROFILE_SUCCESS (some u)),
      dispatched := [.UPDATE_PROFILE_SUCCESS (some u)],
      outcome := .ok u }
  | .err m => { state := s, dispatched := [], outcome := .err m }

/-- The `forgotPassword` orchestrator (AuthContext.jsx lines 164-166): pure
delegation, no dispatch, outcome passed through. -/
def forgotPassword (s : AuthState) (api : ApiResult Obj) : OrchResult Obj :=
  match api with
  | .ok a => { state := s, dispatched := [], outcome := .ok a }
  | .err m => { state := s, dispatched := [], outcome := .err m }

/-- The `resetPassword` orchestrator (AuthContext.jsx lines 169-171): pure
delegation, no dispatch, outcome passed through. -/
def resetPassword (s : AuthState) (api : ApiResult Obj) : OrchResult Obj :=
  match api with
  | .ok a => { state := s, dispatched := [], outcome := .ok a }
  | .err m => { state := s, dispatched := [], outcome := .err m }

/-- The spec's state invariant: `isAuthenticated` true iff `user` present. -/
def authInv (s : AuthState) : Bool :=
  s.isAuthenticated == s.user.isSome

/-- Side condition under which an action preserves `authInv`: success
actions must carry a present payload, and a profile update must find a
present user; every other action needs nothing. -/
def invGuard (a : Action) (s : AuthState) : Bool :=
  match a with
  | .LOGIN_SUCCESS p | .REGISTER_SUCCESS p | .LOAD_USER_SUCCESS p => p.isSome
  | .UPDATE_PROFILE_SUCCESS _ => s.user.isSome
  | _ => true

/-- `overrideEntry` keeps the key of its entry. -/
theorem fst_overrideEntry (b : Obj) (p : String × String) :
    (overrideEntry b p).1 = p.1 := by
  unfold overrideEntry
  cases h : getField b p.1 <;> simp

/-- First-match lookup distributes over list append as a left-biased
choice. -/
theorem getField_append (o1 o2 : Obj) (k : String) :
    getField (o1 ++ o2) k = (getField o1 k).or (getField o2 k) := by
  unfold getField
  rw [List.find?_append]
  cases o1.find? (fun p : String × String => p.1 == k) <;> simp

/-- Lookup in the overridden copy of `a`: `a`'s entry with `b`'s value
substituted when `b` has the key. -/
theorem getField_map_override (a b : Obj) (k : String) :
    getField (a.map (overrideEntry b)) k =
      (getField a k).map (fun w =>
        match getField b k with
        | some v => v
        | none => w) := by
  unfold getField
  rw [List.find?_map]
  have he : ((fun p : String × String => p.1 == k) ∘ overrideEntry b) =
      fun p : String × String => p.1 == k := by
    funext p
    simp [Function.comp, fst_overrideEntry]
  rw [he]
  cases ha : a.find? (fun p : String × String => p.1 == k) with
  | none => simp
  | some pr =>
    have hk : pr.1 = k := by simpa using List.find?_some ha
    cases hb : b.find? (fun p : String × String => p.1 == k) with
    | none => simp [overrideEntry, getField, hk, hb]
    | some q => simp [overrideEntry, getField, hk, hb]

/-- Unfolding lookup one entry at a time. -/
theorem getField_cons (x : String × String) (l : Obj) (k : String) :
    getField (x :: l) k = if x.1 == k then some x.2 else getField l k := by
  unfold getField
  cases h : (x.1 == k) <;> simp [List.find?_cons, h]

/-- When `a` lacks the key, lookup in the part of `b` filtered to keys `a`
lacks agrees with lookup in `b`. -/
theorem getField_filter_of_none (a b : Obj) (k : String)
    (ha : getField a k = none) :
    getField (b.filter fun q => (getField a q.1).isNone) k = getField b k := by
  induction b with
  | nil => rfl
  | cons x xs ih =>
    by_cases hx : x.1 = k
    · have hgx : getField a x.1 = none := by rw [hx, ha]
      simp [List.filter_cons, hgx, getField_cons, hx, ha]
    · have hbx : (x.1 == k) = false := by simp [hx]
      cases hgx : getField a x.1 <;>
        simp [List.filter_cons, hgx, getField_cons, hbx, ih]

/-- Field lookup after a spread: the second object's value where it has the
key, the first object's value otherwise — JS override semantics. -/
theorem getField_spread2 (a b : Obj) (k : String) :
    getField (spread2 a b) k = (getField b k).or (getField a k) := by
  unfold spread2
  rw [getField_append, getField_map_override]
  cases ha : getField a k with
  | none =>
    rw [getField_filter_of_none a b k ha]
    simp [Option.or_none]
  | some w =>
    cases hb : getField b k <;> simp [hb]

/-- Spreading into an empty object gives back the second object. -/
theorem spread2_nil (b : Obj) : spread2 [] b = b := by
  unfold spread2
  simp [getField]

/-- C2: every success action (LOGIN_SUCCESS, REGISTER_SUCCESS,
LOAD_USER_SUCCESS) with payload `p` yields `user = p`,
`isAuthenticated = true`, `isLoading = false`, `error` absent, from any
state. -/
theorem success_actions_outcome (s : AuthState) (p : Option Obj) :
    (authReducer s (.LOGIN_SUCCESS p)).user = p ∧
    (authReducer s (.LOGIN_SUCCESS p)).isAuthenticated = true ∧
    (authReducer s (.LOGIN_SUCCESS p)).isLoading = false ∧
    (authReducer s (.LOGIN_SUCCESS p)).error = none ∧
    (authReducer s (.REGISTER_SUCCESS p)).user = p ∧
    (authReducer s (.REGISTER_SUCCESS p)).isAuthenticated = true ∧
    (authReducer s (.REGISTER_SUCCESS p)).isLoading = false ∧
    (authReducer s (.REGISTER_SUCCESS p)).error = none ∧
    (authReducer s (.LOAD_USER_SUCCESS p)).user = p ∧
    (authReducer s (.LOAD_USER_SUCCESS p)).isAuthenticated = true ∧
    (authReducer s (.LOAD_USER_SUCCESS p)).isLoading = false ∧
    (authReducer s (.LOAD_USER_SUCCESS p)).error = none :=
  ⟨rfl, rfl, rfl, rfl, rfl, rfl, rfl, rfl, rfl, rfl, rfl, rfl⟩

/-- C3: every failure action (LOGIN_FAILURE, REGISTER_FAILURE,
LOAD_USER_FAILURE) with message `m` yields `user` absent,
`isAuthenticated = false`, `isLoading = false`, `error = m`, from any
state. -/
theorem failure_actions_outcome (s : AuthState) (m : String) :
    (authReducer s (.LOGIN_FAILURE m)).user = none ∧
    (authReducer s (.LOGIN_FAILURE m)).isAuthenticated = false ∧
    (authReducer s (.LOGIN_FAILURE m)).isLoading = false ∧
    (authReducer s (.LOGIN_FAILURE m)).error = some m ∧
    (authReducer s (.REGISTER_FAILURE m)).user = none ∧
    (authReducer s (.REGISTER_FAILURE m)).isAuthenticated = false ∧
    (authReducer s (.REGISTER_FAILURE m)).isLoading = false ∧
    (authReducer s (.REGISTER_FAILURE m)).error = some m ∧
    (authReducer s (.LOAD_USER_FAILURE m)).user = none ∧
    (authReducer s (.LOAD_USER_FAILURE m)).isAuthenticated = false ∧
    (authReducer s (.LOAD_USER_FAILURE m)).isLoading = false ∧
    (authReducer s (.LOAD_USER_FAILURE m)).error = some m :=
  ⟨rfl, rfl, rfl, rfl, rfl, rfl, rfl, rfl, rfl, rfl, rfl, rfl⟩

/-- C8: every start action (LOGIN_START, REGISTER_START, LOAD_USER_START)
yields `isLoading = true` and `error` absent, from any state. -/
theorem start_actions_outcome (s : AuthState) :
    (authReducer s .LOGIN_START).isLoading = true ∧
    (authReducer s .LOGIN_START).error = none ∧
    (authReducer s .REGISTER_START).isLoading = true ∧
    (authReducer s .REGISTER_START).error = none ∧
    (authReducer s .LOAD_USER_START).isLoading = true ∧
    (authReducer s .LOAD_USER_START).error = none :=
  ⟨rfl, rfl, rfl, rfl, rfl, rfl⟩

/-- C9: every start action leaves `user` and `isAuthenticated` unchanged:
an authenticated user stays present and authenticated while a login,
register, or load is in flight. -/
theorem start_actions_frame (s : AuthState) :
    (authReducer s .LOGIN_START).user = s.user ∧
    (authReducer s .LOGIN_START).isAuthenticated = s.isAuthenticated ∧
    (authReducer s .REGISTER_START).user = s.user ∧
    (authReducer s .REGISTER_START).isAuthenticated = s.isAuthenticated ∧
    (authReducer s .LOAD_USER_START).user = s.user ∧
    (authReducer s .LOAD_USER_START).isAuthenticated = s.isAuthenticated :=
  ⟨rfl, rfl, rfl, rfl, rfl, rfl⟩

/-- C4: whatever the collaborator logout call does (resolve or reject), the
logout orchestrator dispatches exactly the LOGOUT action, ends in the
logged-out state (user absent, unauthenticated, not loading, no error), and
never surfaces an error to the caller. -/
theorem logout_always_logged_out (s : AuthState) (r : ApiResult Unit) :
    logout s r =
      { state := { user := none, isAuthenticated := false, isLoading := false,
                   error := none },
        dispatched := [.LOGOUT],
        outcome := .ok () } := by
  cases r <;> rfl

/-- C5: with no stored token, the init sequence dispatches exactly one
LOAD_USER_FAILURE action with message "No token found"; reducing it from the
initial state (whose `isLoading` is true) gives user absent,
unauthenticated, not loading, error "No token found". -/
theorem no_token_init_state (profileFetch : ApiResult Obj) :
    (loadUser none profileFetch).1 = [.LOAD_USER_FAILURE "No token found"] ∧
    initialState.isLoading = true ∧
    runActions initialState (loadUser none profileFetch).1 =
      { user := none, isAuthenticated := false, isLoading := false,
        error := some "No token found" } :=
  ⟨rfl, rfl, rfl⟩

/-- C7: when the collaborator call of updateProfile, forgotPassword, or
resetPassword rejects with `m`, the error propagates to the caller, the
state is unchanged and nothing is dispatched; when updateProfile's call
resolves with profile `u`, exactly one UPDATE_PROFILE_SUCCESS action with
payload `u` is dispatched and `u` is returned. -/
theorem delegated_calls_propagate (s : AuthState) (m : String) (u : Obj) :
    updateProfile s (.err m) =
      { state := s, dispatched := [], outcome := .err m } ∧
    forgotPassword s (.err m) =
      { state := s, dispatched := [], outcome := .err m } ∧
    resetPassword s (.err m) =
      { state := s, dispatched := [], outcome := .err m } ∧
    (updateProfile s (.ok u)).dispatched =
      [.UPDATE_PROFILE_SUCCESS (some u)] ∧
    (updateProfile s (.ok u)).outcome = .ok u :=
  ⟨rfl, rfl, rfl, rfl, rfl⟩

/-- C6: reducing UPDATE_PROFILE_SUCCESS with payload `p` on a state whose
user is `u` merges `p` into `u` — at every key `k` the merged user has `p`'s
value where `p` has the key and `u`'s value otherwise — and clears the
error; on the spec's concrete scenario, user `[name=A, email=a@b.c]` updated
with `[name=X]` becomes `[name=X, email=a@b.c]`. -/
theorem profile_update_merges (s : AuthState) (u p : Obj) (k : String)
    (h : s.user = some u) :
    (authReducer s (.UPDATE_PROFILE_SUCCESS (some p))).user =
      some (spread2 u p) ∧
    (authReducer s (.UPDATE_PROFILE_SUCCESS (some p))).error = none ∧
    getField (spread2 u p) k = (getField p k).or (getField u k) ∧
    spread2 [("name", "A"), ("email", "a@b.c")] [("name", "X")] =
      [("name", "X"), ("email", "a@b.c")] := by
  refine ⟨?_, rfl, getField_spread2 u p k, by decide⟩
  simp [authReducer, h]

/-- Witness for C6 at the spec's concrete scenario. -/
theorem profile_update_merges_witness :
    (AuthState.mk (some [("name", "A"), ("email", "a@b.c")]) true false
        none).user = some [("name", "A"), ("email", "a@b.c")] ∧
    ((authReducer
        (AuthState.mk (some [("name", "A"), ("email", "a@b.c")]) true false
          none)
        (Action.UPDATE_PROFILE_SUCCESS (some [("name", "X")]))).user =
      some (spread2 [("name", "A"), ("email", "a@b.c")] [("name", "X")]) ∧
     (authReducer
        (AuthState.mk (some [("name", "A"), ("email", "a@b.c")]) true false
          none)
        (Action.UPDATE_PROFILE_SUCCESS (some [("name", "X")]))).error =
      none ∧
     getField (spread2 [("name", "A"), ("email", "a@b.c")] [("name", "X")])
        "name" =
      (getField [("name", "X")] "name").or
        (getField [("name", "A"), ("email", "a@b.c")] "name") ∧
     spread2 [("name", "A"), ("email", "a@b.c")] [("name", "X")] =
      [("name", "X"), ("email", "a@b.c")]) :=
  ⟨rfl, profile_update_merges _ [("name", "A"), ("email", "a@b.c")]
    [("name", "X")] "name" rfl⟩

/-- C10: UPDATE_PROFILE_SUCCESS on a state with no user yields a user of
exactly the payload's fields (the absent user spreads as no fields), and a
profile update never changes isAuthenticated or isLoading on any state. -/
theorem profile_update_absent_user (s : AuthState) (p : Obj) (t : AuthState)
    (q : Option Obj) (h : s.user = none) :
    (authReducer s (.UPDATE_PROFILE_SUCCESS (some p))).user = some p ∧
    (authReducer t (.UPDATE_PROFILE_SUCCESS q)).isAuthenticated =
      t.isAuthenticated ∧
    (authReducer t (.UPDATE_PROFILE_SUCCESS q)).isLoading = t.isLoading := by
  refine ⟨?_, rfl, rfl⟩
  simp [authReducer, h, spread2_nil]

/-- Witness for C10 at the initial state and payload `[name=X]`. -/
theorem profile_update_absent_user_witness :
    initialState.user = none ∧
    ((authReducer initialState
        (Action.UPDATE_PROFILE_SUCCESS (some [("name", "X")]))).user =
      some [("name", "X")] ∧
     (authReducer initialState
        (Action.UPDATE_PROFILE_SUCCESS none)).isAuthenticated =
      initialState.isAuthenticated ∧
     (authReducer initialState
        (Action.UPDATE_PROFILE_SUCCESS none)).isLoading =
      initialState.isLoading) :=
  ⟨rfl, profile_update_absent_user initialState [("name", "X")] initialState
    none rfl⟩

/-- C1 fails as stated: LOGIN_SUCCESS with an absent payload — exactly what
`login` dispatches when the response carries no user — turns a state
satisfying the equivalence (the initial state) into one with
`isAuthenticated` true and `user` absent. -/
theorem success_absent_payload_breaks_inv :
    authInv initialState = true ∧
    authInv (authReducer initialState (Action.LOGIN_SUCCESS none)) = false :=
  by decide

/-- C1 as amended: every recognized action preserves the equivalence
`isAuthenticated` true iff `user` present, provided success actions carry a
present payload and a profile update finds a present user; the guard is
exactly what the two counterexample shapes (success with absent payload,
profile update on an absent user) force. -/
theorem authInv_preserved_guarded (s : AuthState) (a : Action)
    (h1 : authInv s = true) (h2 : invGuard a s = true) :
    authInv (authReducer s a) = true := by
  cases a <;> simp_all [authInv, authReducer, invGuard]

/-- Witness for the amended C1 at the initial state and a present-payload
login success. -/
theorem authInv_preserved_guarded_witness :
    authInv initialState = true ∧
    invGuard (Action.LOGIN_SUCCESS (some [("name", "X")])) initialState =
      true ∧
    authInv (authReducer initialState
      (Action.LOGIN_SUCCESS (some [("name", "X")]))) = true :=
  ⟨by decide, by decide,
    authInv_preserved_guarded initialState
      (Action.LOGIN_SUCCESS (some [("name", "X")])) (by decide) (by decide)⟩

end Testrack
